import Mathlib

/-!
Shallow embedding of the command interpreter of the openclaw repository:
the activation-command parser and the `handleCommands` dispatcher of
`src/auto-reply/group-activation.ts`, together with the control-command
detector `hasControlCommand`.  External collaborators (run coordination,
persistence, status/help rendering, abort triggers, phone-number
normalization, send-policy evaluation) are modelled as an explicit
environment of oracle functions, and every externally visible action of
the dispatcher is recorded in an effect trace.
-/

namespace Openclaw

/-- The JavaScript `\s` / `String.prototype.trim` whitespace set. -/
def isJsSpace (c : Char) : Bool :=
  let n := c.toNat
  n = 0x20 || n = 0x9 || n = 0xa || n = 0xb || n = 0xc || n = 0xd ||
  n = 0xa0 || n = 0x1680 || (0x2000 ≤ n && n ≤ 0x200a) ||
  n = 0x2028 || n = 0x2029 || n = 0x202f || n = 0x205f || n = 0x3000 || n = 0xfeff

/-- The JavaScript `\w` word-character class. -/
def isWordChar (c : Char) : Bool := c.isAlphanum || c = '_'

/-- ASCII letter, the `[a-zA-Z]` class of the activation regex. -/
def isAsciiLetter (c : Char) : Bool := c.isAlpha

/-- JavaScript `String.prototype.trim`, on the character list. -/
def trimChars (l : List Char) : List Char :=
  ((l.dropWhile isJsSpace).reverse.dropWhile isJsSpace).reverse

/-- Lower-case a character list (ASCII case mapping, as used by the
case-insensitive regexes and `toLowerCase` on the ASCII command tokens). -/
def lowerChars (l : List Char) : List Char := l.map Char.toLower

/-- The `GroupActivationMode` union from `group-activation.ts`. -/
inductive GroupActivationMode where
  | mention
  | always
deriving DecidableEq

/-- The string form of a `GroupActivationMode` literal. -/
def modeText : GroupActivationMode → String
  | .mention => "mention"
  | .always => "always"

/-- The function `normalizeGroupActivation` from `group-activation.ts`: trim,
lower-case, and accept exactly "mention" or "always". -/
def normalizeGroupActivation (raw : Option String) : Option GroupActivationMode :=
  match raw with
  | none => none
  | some s =>
    let v := lowerChars (trimChars s.data)
    if v = "mention".data then some GroupActivationMode.mention
    else if v = "always".data then some GroupActivationMode.always
    else none

/-- Result of `parseActivationCommand`. -/
structure ActivationParse where
  hasCommand : Bool
  mode : Option GroupActivationMode
deriving DecidableEq

/-- Word boundary after a token: the remainder is empty or does not start
with a word character (the `\b` of the activation regex). -/
def wordEndsAfter : List Char → Bool
  | [] => true
  | c :: _ => !isWordChar c

/-- The optional `(?:\s+([a-zA-Z]+))?` capture of the activation regex:
at least one whitespace character followed by a maximal nonempty run of
ASCII letters, otherwise no argument. -/
def argAfterToken (rest : List Char) : Option String :=
  let sp := rest.takeWhile isJsSpace
  let rem := rest.dropWhile isJsSpace
  let letters := rem.takeWhile isAsciiLetter
  if sp.isEmpty || letters.isEmpty then none else some (String.mk letters)

/-- The function `parseActivationCommand` from `group-activation.ts`: match
`^\/activation\b(?:\s+([a-zA-Z]+))?` case-insensitively against the
trimmed message, normalizing the captured argument. -/
def parseActivationCommand (raw : Option String) : ActivationParse :=
  match raw with
  | none => { hasCommand := false, mode := none }
  | some s =>
    let t := trimChars s.data
    if t.isEmpty then { hasCommand := false, mode := none }
    else if "/activation".data.isPrefixOf (lowerChars t) &&
        wordEndsAfter ((lowerChars t).drop 11) then
      { hasCommand := true, mode := normalizeGroupActivation (argAfterToken (t.drop 11)) }
    else { hasCommand := false, mode := none }

/-- The three send-policy modes of the spec data model. -/
inductive SendPolicyMode where
  | allow
  | deny
  | inherit
deriving DecidableEq

/-- Result of `parseSendPolicyCommand`. -/
structure SendParse where
  hasCommand : Bool
  mode : Option SendPolicyMode
deriving DecidableEq

/-- Normalization of the `/send` argument: the user-facing forms are
on|off|inherit, mapped internally to allow|deny|inherit. -/
def normalizeSendPolicyArg (raw : Option String) : Option SendPolicyMode :=
  match raw with
  | none => none
  | some s =>
    let v := lowerChars (trimChars s.data)
    if v = "on".data then some SendPolicyMode.allow
    else if v = "off".data then some SendPolicyMode.deny
    else if v = "inherit".data then some SendPolicyMode.inherit
    else none

/-- Modelled from the spec: `parseSendPolicyCommand` is imported from
`../send-policy.js`, which is not part of this repository snapshot.  The
spec describes the command surface `/send [on|off|inherit]` (internally
allow|deny|inherit), case-insensitive, where an unrecognized or missing
argument yields "command present, mode absent" rather than "no command".
It is modelled in parallel with `parseActivationCommand`. -/
def parseSendPolicyCommand (raw : String) : SendParse :=
  let t := trimChars raw.data
  if t.isEmpty then { hasCommand := false, mode := none }
  else if "/send".data.isPrefixOf (lowerChars t) &&
      wordEndsAfter ((lowerChars t).drop 5) then
    { hasCommand := true, mode := normalizeSendPolicyArg (argAfterToken (t.drop 5)) }
  else { hasCommand := false, mode := none }

/-- The token alternation of `CONTROL_COMMAND_RE`, in source order. -/
def controlTokens : List (List Char) :=
  ["status", "help", "thinking", "think", "t", "verbose", "v", "elevated",
    "elev", "model", "queue", "activation", "send", "restart", "reset",
    "new", "compact"].map String.data

/-- The set `CONTROL_COMMAND_EXACT` from the control-command module. -/
def exactControlForms : List (List Char) :=
  ["/help", "/status", "/restart", "/activation", "/send", "/reset",
    "/new", "/compact"].map String.data

/-- The `(?=$|\s|:)` lookahead after a command token. -/
def tokenTerminator : List Char → Bool
  | [] => true
  | c :: _ => isJsSpace c || c = ':'

/-- A `/`-prefixed token from `toks` begins exactly at the head of the
list, case-insensitively, followed by a terminator. -/
def slashTokenAt (toks : List (List Char)) : List Char → Bool
  | [] => false
  | c :: rest =>
    (c = '/') && toks.any fun t =>
      t.isPrefixOf (lowerChars rest) && tokenTerminator (rest.drop t.length)

/-- Left-to-right scan for `(?:^|\s)\/(?:...)(?=$|\s|:)`: the flag records
whether the current position is the start of the string or preceded by
whitespace. -/
def tokenScan (toks : List (List Char)) : Bool → List Char → Bool
  | _, [] => false
  | b, c :: rest => (b && slashTokenAt toks (c :: rest)) || tokenScan toks (isJsSpace c) rest

/-- The function `hasControlCommand` from the control-command module: false on an
empty or all-whitespace message, true when the lowered trimmed message is
one of the exact forms, otherwise the result of `CONTROL_COMMAND_RE`
tested against the original text. -/
def hasControlCommand (text : String) : Bool :=
  if text = "" then false
  else
    let t := trimChars text.data
    if t.isEmpty then false
    else if exactControlForms.contains (lowerChars t) then true
    else tokenScan controlTokens true text.data

/-- The `CommandContext` record built by `buildCommandContext`. -/
structure CommandCtx where
  surface : String
  isWhatsAppSurface : Bool
  ownerList : List String
  isAuthorizedSender : Bool
  senderE164 : Option String
  abortKey : Option String
  rawBodyNormalized : String
  commandBodyNormalized : String
deriving DecidableEq

/-- The slice of `InlineDirectives` read by `handleCommands`. -/
structure InlineDirectives where
  hasStatusDirective : Bool
deriving DecidableEq

/-- The `SessionEntry` record (its type lives in `config/sessions.ts`, outside this
snapshot; fields are taken from the spec data model together with the
reads and writes performed by `handleCommands`). -/
structure SessionEntry where
  sessionId : Option String := none
  groupActivation : Option String := none
  groupActivationNeedsSystemIntro : Bool := false
  sendPolicy : Option String := none
  abortedLastRun : Bool := false
  compactionCount : Nat := 0
  inputTokens : Option Nat := none
  outputTokens : Option Nat := none
  totalTokens : Option Nat := none
  contextTokens : Option Nat := none
  updatedAt : Nat := 0
  chatType : Option String := none
  surface : Option String := none
  skillsSnapshot : Option String := none
deriving DecidableEq

/-- Outcome reported by the `compactEmbeddedPiSession` collaborator. -/
structure CompactOutcome where
  ok : Bool
  compacted : Bool
  tokensBefore : Option Nat
  reason : Option String
deriving DecidableEq

/-- The external collaborators of `handleCommands`, as pure oracles:
run coordination (`isEmbeddedPiRunActive`, `waitForEmbeddedPiRunEnd`,
`compactEmbeddedPiSession`), the abort-trigger check, `normalizeE164`,
the restart mechanism, the status/help renderers, formatting helpers,
mention/structural-prefix stripping, and `resolveSendPolicy`.  `now`
models `Date.now()` for this dispatch. -/
structure Env where
  now : Nat
  isRunActive : String → Bool
  runEndedInTime : String → Bool
  compactOutcome : CompactOutcome
  abortTriggerCheck : String → Bool
  normE164 : String → String
  restartMethod : String
  helpMessage : String
  buildStatus : Option GroupActivationMode → String
  formatContextUsage : Option Nat → Option Nat → String
  formatTokens : Nat → String
  stripStructural : String → String
  stripMentionsFn : String → String
  sendPolicyEval : Option SessionEntry → Option String → String → Option String → String

/-- The per-message parameters of `handleCommands` that the embedding
tracks (pure renderer inputs such as provider or model are folded into
the `Env` oracles that consume them). -/
structure HandleParams where
  command : CommandCtx
  directives : InlineDirectives
  sessionEntry : Option SessionEntry
  sessionStore : Option (String → Option SessionEntry)
  sessionKey : Option String
  storePath : Option String
  abortMemory : String → Bool
  rawBody : Option String
  isGroup : Bool
  defaultActivation : GroupActivationMode
  contextTokens : Option Nat

/-- The `{reply?, shouldContinue}` result of `handleCommands` (a reply
payload is just its text). -/
structure DispatchResult where
  reply : Option String
  shouldContinue : Bool
deriving DecidableEq

/-- Externally visible actions performed during one dispatch, in order. -/
inductive Effect where
  | logVerbose (msg : String)
  | triggerRestart
  | checkRunActive (sessionId : String) (active : Bool)
  | abortRun (sessionId : String)
  | waitRunEnd (sessionId : String) (timeoutMs : Nat) (endedInTime : Bool)
  | compactCall (sessionId : String) (instructions : Option String)
  | saveStore (path : String)
  | setAbortMemory (key : String) (value : Bool)
  | systemEvent (line : String)
deriving DecidableEq

/-- The mutable state observable after a dispatch: the session entry, the
session store, and the ephemeral abort memory. -/
structure OutState where
  sessionEntry : Option SessionEntry
  sessionStore : Option (String → Option SessionEntry)
  abortMemory : String → Bool

/-- The store write `sessionStore[sessionKey] = entry`. -/
def storeInsert (store : String → Option SessionEntry) (k : String) (e : SessionEntry) :
    String → Option SessionEntry :=
  fun k2 => if k2 = k then some e else store k2

/-- The `/reset` / `/new` trigger of `handleCommands`. -/
def resetRequested (body : String) : Bool :=
  body = "/reset" || body = "/new"

/-- The `/restart` trigger of `handleCommands`. -/
def restartRequested (body : String) : Bool :=
  body = "/restart" || "/restart ".data.isPrefixOf body.data

/-- The `/help` trigger: exact match or the token regex
`(?:^|\s)\/help(?=$|\s|:)` anywhere in the body. -/
def helpRequested (body : String) : Bool :=
  body = "/help" || tokenScan ["help".data] true body.data

/-- The `/status` trigger, including the externally supplied directive. -/
def statusRequested (d : InlineDirectives) (body : String) : Bool :=
  d.hasStatusDirective || body = "/status" || "/status ".data.isPrefixOf body.data

/-- The `/compact` trigger of `handleCommands`. -/
def compactRequested (body : String) : Bool :=
  body = "/compact" || "/compact ".data.isPrefixOf body.data

/-- The label `command.senderE164 || "<unknown>"` used in the denial logs. -/
def senderLabel : Option String → String
  | some v => if v = "" then "<unknown>" else v
  | none => "<unknown>"

/-- The normalized sender identity used by the activation owner check
(`""` when no sender identity is available). -/
def activationSender (env : Env) (cmd : CommandCtx) : String :=
  match cmd.senderE164 with
  | some s => env.normE164 s
  | none => ""

/-- The denial condition of the `/activation` branch:
`!isAuthorizedSender || (isWhatsAppSurface && !isActivationOwner)`. -/
def activationDenied (env : Env) (cmd : CommandCtx) : Bool :=
  let normSender := activationSender env cmd
  let isActivationOwner :=
    if !cmd.isWhatsAppSurface || cmd.ownerList.isEmpty then cmd.isAuthorizedSender
    else !(normSender = "") && cmd.ownerList.contains normSender
  !cmd.isAuthorizedSender || (cmd.isWhatsAppSurface && !isActivationOwner)

/-- The function `extractCompactInstructions`: strip structural prefixes, strip
mentions in groups, trim, drop the leading `/compact` token and an
optional `:`, and return the remaining trimmed free text if nonempty. -/
def extractCompactInstructions (env : Env) (rawBody : Option String) (isGroup : Bool) :
    Option String :=
  let raw := env.stripStructural (rawBody.getD "")
  let stripped := if isGroup then env.stripMentionsFn raw else raw
  let t := trimChars stripped.data
  if t.isEmpty then none
  else if "/compact".data.isPrefixOf (lowerChars t) then
    let rest := (t.drop 8).dropWhile isJsSpace
    let rest2 :=
      match rest with
      | ':' :: tl => tl.dropWhile isJsSpace
      | _ => rest
    if rest2.isEmpty then none else some (String.mk rest2)
  else none

/-- Modelled from the spec: `incrementCompactionCount` lives in
`./session-updates.ts`, outside this snapshot.  Per the spec it
increments `compactionCount` through a dedicated counter-increment
operation, bumps `updatedAt`, and persists through the session-store save
collaborator; the guards mirror the sibling persistence code in
`handleCommands` (store and key to update the map, store path to save). -/
def incrementCompactionCount (now : Nat) (entry : SessionEntry)
    (store : Option (String → Option SessionEntry)) (key : Option String)
    (path : Option String) :
    SessionEntry × Option (String → Option SessionEntry) × List Effect :=
  let e := { entry with compactionCount := entry.compactionCount + 1, updatedAt := now }
  let store2 :=
    match store, key with
    | some st, some k => some (storeInsert st k e)
    | _, _ => store
  let eff :=
    match path with
    | some pth => [Effect.saveStore pth]
    | none => []
  (e, store2, eff)

/-- The label of the compaction reply, chosen from the outcome; a zero or
missing `tokensBefore` is falsy in the source and yields plain
"Compacted". -/
def compactLabel (env : Env) : String :=
  if env.compactOutcome.ok then
    if env.compactOutcome.compacted then
      match env.compactOutcome.tokensBefore with
      | some n => if n = 0 then "Compacted" else "Compacted (" ++ env.formatTokens n ++ " before)"
      | none => "Compacted"
    else "Compaction skipped"
  else "Compaction failed"

/-- The reason `result.reason?.trim()` with JavaScript truthiness: an absent or
all-whitespace reason contributes nothing. -/
def compactReason (env : Env) : Option String :=
  match env.compactOutcome.reason with
  | none => none
  | some r =>
    let t := trimChars r.data
    if t.isEmpty then none else some (String.mk t)

/-- The total `sessionEntry.totalTokens ?? ((inputTokens ?? 0) + (outputTokens ?? 0))`. -/
def entryTotalTokens (e : SessionEntry) : Nat :=
  match e.totalTokens with
  | some t => t
  | none => e.inputTokens.getD 0 + e.outputTokens.getD 0

/-- The composed compaction line `<label>[: <reason>] • <summary>`. -/
def compactLine (env : Env) (p : HandleParams) (e : SessionEntry) : String :=
  let total := entryTotalTokens e
  let summary := env.formatContextUsage (if total > 0 then some total else none)
    (match p.contextTokens with
      | some c => some c
      | none => e.contextTokens)
  match compactReason env with
  | some r => compactLabel env ++ ": " ++ r ++ " • " ++ summary
  | none => compactLabel env ++ " • " ++ summary

/-- The function `handleCommands` from `group-activation.ts`: the command dispatcher.
It returns the dispatch result, the state after the dispatch, and the
ordered trace of external effects.  The guard sequence, authorization
checks, mutations and replies follow the source line by line; renderer
collaborators are read from `Env`. -/
def handleCommands (env : Env) (p : HandleParams) :
    DispatchResult × OutState × List Effect :=
  let cmd := p.command
  let body := cmd.commandBodyNormalized
  let st0 : OutState := ⟨p.sessionEntry, p.sessionStore, p.abortMemory⟩
  if resetRequested body && !cmd.isAuthorizedSender then
    (⟨none, false⟩, st0,
      [Effect.logVerbose ("Ignoring /reset from unauthorized sender: " ++ senderLabel cmd.senderE164)])
  else
    let activationCommand := parseActivationCommand (some body)
    let sendPolicyCommand := parseSendPolicyCommand body
    if activationCommand.hasCommand then
      if !p.isGroup then
        (⟨some "⚙️ Group activation only applies to group chats.", false⟩, st0, [])
      else if activationDenied env cmd then
        (⟨none, false⟩, st0,
          [Effect.logVerbose
            ("Ignoring /activation from unauthorized sender in group: " ++ senderLabel cmd.senderE164)])
      else
        match activationCommand.mode with
        | none => (⟨some "⚙️ Usage: /activation mention|always", false⟩, st0, [])
        | some mode =>
          match p.sessionEntry, p.sessionStore, p.sessionKey with
          | some entry, some store, some key =>
            let entry2 := { entry with
              groupActivation := some (modeText mode),
              groupActivationNeedsSystemIntro := true,
              updatedAt := env.now }
            let effs :=
              match p.storePath with
              | some pth => [Effect.saveStore pth]
              | none => []
            (⟨some ("⚙️ Group activation set to " ++ modeText mode ++ "."), false⟩,
              ⟨some entry2, some (storeInsert store key entry2), p.abortMemory⟩, effs)
          | _, _, _ =>
            (⟨some ("⚙️ Group activation set to " ++ modeText mode ++ "."), false⟩, st0, [])
    else if sendPolicyCommand.hasCommand then
      if !cmd.isAuthorizedSender then
        (⟨none, false⟩, st0,
          [Effect.logVerbose ("Ignoring /send from unauthorized sender: " ++ senderLabel cmd.senderE164)])
      else
        match sendPolicyCommand.mode with
        | none => (⟨some "⚙️ Usage: /send on|off|inherit", false⟩, st0, [])
        | some mode =>
          let label :=
            match mode with
            | .inherit => "inherit"
            | .allow => "on"
            | .deny => "off"
          match p.sessionEntry, p.sessionStore, p.sessionKey with
          | some entry, some store, some key =>
            let entry2 := { entry with
              sendPolicy :=
                (match mode with
                  | .inherit => none
                  | .allow => some "allow"
                  | .deny => some "deny"),
              updatedAt := env.now }
            let effs :=
              match p.storePath with
              | some pth => [Effect.saveStore pth]
              | none => []
            (⟨some ("⚙️ Send policy set to " ++ label ++ "."), false⟩,
              ⟨some entry2, some (storeInsert store key entry2), p.abortMemory⟩, effs)
          | _, _, _ =>
            (⟨some ("⚙️ Send policy set to " ++ label ++ "."), false⟩, st0, [])
    else if restartRequested body then
      if !cmd.isAuthorizedSender then
        (⟨none, false⟩, st0,
          [Effect.logVerbose ("Ignoring /restart from unauthorized sender: " ++ senderLabel cmd.senderE164)])
      else
        (⟨some ("⚙️ Restarting clawdbot via " ++ env.restartMethod ++
            "; give me a few seconds to come back online."), false⟩,
          st0, [Effect.triggerRestart])
    else if helpRequested body then
      if !cmd.isAuthorizedSender then
        (⟨none, false⟩, st0,
          [Effect.logVerbose ("Ignoring /help from unauthorized sender: " ++ senderLabel cmd.senderE164)])
      else (⟨some env.helpMessage, false⟩, st0, [])
    else if statusRequested p.directives body then
      if !cmd.isAuthorizedSender then
        (⟨none, false⟩, st0,
          [Effect.logVerbose ("Ignoring /status from unauthorized sender: " ++ senderLabel cmd.senderE164)])
      else
        let ga :=
          if p.isGroup then
            some ((normalizeGroupActivation
              (p.sessionEntry.bind fun e => e.groupActivation)).getD p.defaultActivation)
          else none
        (⟨some (env.buildStatus ga), false⟩, st0, [])
    else if compactRequested body then
      if !cmd.isAuthorizedSender then
        (⟨none, false⟩, st0,
          [Effect.logVerbose ("Ignoring /compact from unauthorized sender: " ++ senderLabel cmd.senderE164)])
      else
        match p.sessionEntry with
        | none => (⟨some "⚙️ Compaction unavailable (missing session id).", false⟩, st0, [])
        | some entry =>
          match entry.sessionId with
          | none => (⟨some "⚙️ Compaction unavailable (missing session id).", false⟩, st0, [])
          | some sid =>
            if sid = "" then
              (⟨some "⚙️ Compaction unavailable (missing session id).", false⟩, st0, [])
            else
              let coordEffs :=
                if env.isRunActive sid then
                  [Effect.checkRunActive sid true, Effect.abortRun sid,
                    Effect.waitRunEnd sid 15000 (env.runEndedInTime sid)]
                else [Effect.checkRunActive sid false]
              let instr := extractCompactInstructions env p.rawBody p.isGroup
              let afterCompact :=
                if env.compactOutcome.ok && env.compactOutcome.compacted then
                  incrementCompactionCount env.now entry p.sessionStore p.sessionKey p.storePath
                else (entry, p.sessionStore, [])
              let line := compactLine env p entry
              (⟨some ("⚙️ " ++ line), false⟩,
                ⟨some afterCompact.1, afterCompact.2.1, p.abortMemory⟩,
                coordEffs ++ [Effect.compactCall sid instr] ++ afterCompact.2.2 ++
                  [Effect.systemEvent line])
    else if env.abortTriggerCheck cmd.rawBodyNormalized then
      match p.sessionEntry, p.sessionStore, p.sessionKey with
      | some entry, some store, some key =>
        let entry2 := { entry with abortedLastRun := true, updatedAt := env.now }
        let effs :=
          match p.storePath with
          | some pth => [Effect.saveStore pth]
          | none => []
        (⟨some "⚙️ Agent was aborted.", false⟩,
          ⟨some entry2, some (storeInsert store key entry2), p.abortMemory⟩, effs)
      | _, _, _ =>
        match cmd.abortKey with
        | some k =>
          if k = "" then (⟨some "⚙️ Agent was aborted.", false⟩, st0, [])
          else
            (⟨some "⚙️ Agent was aborted.", false⟩,
              ⟨p.sessionEntry, p.sessionStore, fun k2 => if k2 = k then true else p.abortMemory k2⟩,
              [Effect.setAbortMemory k true])
        | none => (⟨some "⚙️ Agent was aborted.", false⟩, st0, [])
    else
      let policy := env.sendPolicyEval p.sessionEntry p.sessionKey
        ((p.sessionEntry.bind fun e => e.surface).getD cmd.surface)
        (p.sessionEntry.bind fun e => e.chatType)
      if policy = "deny" then
        (⟨none, false⟩, st0,
          [Effect.logVerbose ("Send blocked by policy for session " ++ p.sessionKey.getD "unknown")])
      else (⟨none, true⟩, st0, [])

/-- The command variants distinguished by the dispatcher. -/
inductive Cmd where
  | reset
  | activation (mode : Option GroupActivationMode)
  | sendPolicy (mode : Option SendPolicyMode)
  | restart
  | help
  | status
  | compact
  | abort
  | fallthrough
deriving DecidableEq

/-- The command the dispatcher settles on, read off the guard sequence of
`handleCommands` (fixed priority Reset/New > Activation > SendPolicy >
Restart > Help > Status > Compact > Abort). -/
def classifyCommand (env : Env) (d : InlineDirectives) (body raw : String) : Cmd :=
  if resetRequested body then Cmd.reset
  else if (parseActivationCommand (some body)).hasCommand then
    Cmd.activation (parseActivationCommand (some body)).mode
  else if (parseSendPolicyCommand body).hasCommand then
    Cmd.sendPolicy (parseSendPolicyCommand body).mode
  else if restartRequested body then Cmd.restart
  else if helpRequested body then Cmd.help
  else if statusRequested d body then Cmd.status
  else if compactRequested body then Cmd.compact
  else if env.abortTriggerCheck raw then Cmd.abort
  else Cmd.fallthrough

/-- The privileged commands of the authorization policy: everything the
dispatcher gates on `isAuthorizedSender` (activation only inside a
group; abort and the non-command fallthrough are not privileged). -/
def isPrivilegedCmd (c : Cmd) (isGroup : Bool) : Bool :=
  match c with
  | .reset => true
  | .activation _ => isGroup
  | .sendPolicy _ => true
  | .restart => true
  | .help => true
  | .status => true
  | .compact => true
  | .abort => false
  | .fallthrough => false

/-- The trace contains a persistence write. -/
def savedStore (tr : List Effect) : Bool :=
  tr.any fun e =>
    match e with
    | .saveStore _ => true
    | _ => false

/-- The trace contains a run-coordination call (active-run check,
cancellation, or termination wait). -/
def touchesRunCoordination (tr : List Effect) : Bool :=
  tr.any fun e =>
    match e with
    | .checkRunActive _ _ => true
    | .abortRun _ => true
    | .waitRunEnd _ _ _ => true
    | _ => false

/-- The trace contains a compaction call. -/
def callsCompaction (tr : List Effect) : Bool :=
  tr.any fun e =>
    match e with
    | .compactCall _ _ => true
    | _ => false

/-- The trace contains an ephemeral abort-memory write. -/
def writesAbortMemory (tr : List Effect) : Bool :=
  tr.any fun e =>
    match e with
    | .setAbortMemory _ _ => true
    | _ => false

/-- A concrete environment used by witnesses: no run is active and
nothing is an abort trigger. -/
def env0 : Env where
  now := 1000
  isRunActive := fun _ => false
  runEndedInTime := fun _ => true
  compactOutcome := { ok := true, compacted := false, tokensBefore := none, reason := none }
  abortTriggerCheck := fun _ => false
  normE164 := fun s => s
  restartMethod := "pm2"
  helpMessage := "help text"
  buildStatus := fun _ => "status text"
  formatContextUsage := fun _ _ => "ctx"
  formatTokens := fun _ => "12k"
  stripStructural := fun s => s
  stripMentionsFn := fun s => s
  sendPolicyEval := fun _ _ _ _ => "allow"

/-- A concrete command context used by witnesses. -/
def ctx0 : CommandCtx where
  surface := "whatsapp"
  isWhatsAppSurface := true
  ownerList := []
  isAuthorizedSender := true
  senderE164 := some "+15550001111"
  abortKey := some "abort-key-0"
  rawBodyNormalized := ""
  commandBodyNormalized := ""

/-- A concrete session entry used by witnesses. -/
def entry0 : SessionEntry where
  sessionId := some "sess-1"

/-- A concrete parameter record used by witnesses. -/
def params0 : HandleParams where
  command := ctx0
  directives := { hasStatusDirective := false }
  sessionEntry := some entry0
  sessionStore := some fun k => if k = "key-1" then some entry0 else none
  sessionKey := some "key-1"
  storePath := some "/tmp/sessions.json"
  abortMemory := fun _ => false
  rawBody := none
  isGroup := false
  defaultActivation := GroupActivationMode.mention
  contextTokens := some 200000

/-- The stored `sendPolicy` field after `/send <mode>`: inherit removes
the field (absence, not a literal "inherit"), allow/deny store the
value. -/
def sendFieldValue : SendPolicyMode → Option String
  | .inherit => none
  | .allow => some "allow"
  | .deny => some "deny"

/-- The reply label of `/send <mode>`: inherit→"inherit", allow→"on",
deny→"off". -/
def sendModeLabel : SendPolicyMode → String
  | .inherit => "inherit"
  | .allow => "on"
  | .deny => "off"

/-- The parameters of a later dispatch that starts from the state left by
an earlier one (same message context, mutated session data). -/
def nextParams (p : HandleParams) (st : OutState) : HandleParams :=
  { p with
    sessionEntry := st.sessionEntry,
    sessionStore := st.sessionStore,
    abortMemory := st.abortMemory }

/-- Boundary condition before a token occurrence: at the very start the
scan flag decides; after at least one character the previous character
must be whitespace. -/
def boundaryOk (b : Bool) (pre : List Char) : Prop :=
  match pre.getLast? with
  | none => b = true
  | some c => isJsSpace c = true

/-- Spec-side characterization of a control-command token occurrence:
somewhere in the text, at the start of the string or right after
whitespace, stands `/` followed by a recognized token and then
end-of-string, whitespace, or `:`. -/
def specTokenOccurs (l : List Char) : Prop :=
  ∃ pre post, l = pre ++ post ∧ boundaryOk true pre ∧
    slashTokenAt controlTokens post = true


/-- C1: every privileged command (/reset, /new, /send, /restart, /help,
/status, /compact, and /activation inside a group) issued by a sender
with `isAuthorizedSender = false` produces `{reply: none,
shouldContinue: false}`: the denial is silent. -/
theorem c1_unauthorized_privileged_silent (env : Env) (p : HandleParams)
    (hpriv : isPrivilegedCmd
      (classifyCommand env p.directives p.command.commandBodyNormalized
        p.command.rawBodyNormalized) p.isGroup = true)
    (hauth : p.command.isAuthorizedSender = false) :
    (handleCommands env p).1 = ⟨none, false⟩ := by
  unfold classifyCommand at hpriv
  unfold handleCommands
  split at hpriv
  case isTrue h1 =>
    simp only [h1, hauth, Bool.not_false, Bool.and_true, if_pos]
  case isFalse h1 =>
    simp only [h1, hauth, Bool.not_false, Bool.and_true, if_neg, Bool.false_and,
      Bool.false_eq_true, not_false_eq_true, if_false]
    split at hpriv
    case isTrue h2 =>
      simp only [isPrivilegedCmd] at hpriv
      simp only [h1, h2, hauth, activationDenied, Bool.not_false, Bool.true_or, if_pos, hpriv,
        Bool.not_true, Bool.false_eq_true, not_false_eq_true, if_neg, if_true, if_false]
    case isFalse h2 =>
      split at hpriv
      case isTrue h3 =>
        simp only [h1, h2, h3, hauth, Bool.not_false, if_pos, if_neg, Bool.false_eq_true,
          not_false_eq_true, if_true, if_false]
      case isFalse h3 =>
        split at hpriv
        case isTrue h4 =>
          simp only [h1, h2, h3, h4, hauth, Bool.not_false, if_pos, if_neg, Bool.false_eq_true,
            not_false_eq_true, if_true, if_false]
        case isFalse h4 =>
          split at hpriv
          case isTrue h5 =>
            simp only [h1, h2, h3, h4, h5, hauth, Bool.not_false, if_pos, if_neg,
              Bool.false_eq_true, not_false_eq_true, if_true, if_false]
          case isFalse h5 =>
            split at hpriv
            case isTrue h6 =>
              simp only [h1, h2, h3, h4, h5, h6, hauth, Bool.not_false, if_pos, if_neg,
                Bool.false_eq_true, not_false_eq_true, if_true, if_false]
            case isFalse h6 =>
              split at hpriv
              case isTrue h7 =>
                simp only [h1, h2, h3, h4, h5, h6, h7, hauth, Bool.not_false, if_pos, if_neg,
                  Bool.false_eq_true, not_false_eq_true, if_true, if_false]
              case isFalse h7 =>
                split at hpriv
                · simp [isPrivilegedCmd] at hpriv
                · simp [isPrivilegedCmd] at hpriv

/-- Inversion: a message classified as Activation fails the earlier guard
and parses as an activation command with the classified mode. -/
theorem classify_activation_elim (env : Env) (d : InlineDirectives) (body raw : String)
    (m : Option GroupActivationMode)
    (h : classifyCommand env d body raw = Cmd.activation m) :
    resetRequested body = false ∧ (parseActivationCommand (some body)).hasCommand = true ∧
      (parseActivationCommand (some body)).mode = m := by
  unfold classifyCommand at h
  repeat' split at h
  all_goals simp_all

/-- Inversion: a message classified as SendPolicy fails all earlier
guards and parses as a send-policy command with the classified mode. -/
theorem classify_sendPolicy_elim (env : Env) (d : InlineDirectives) (body raw : String)
    (m : Option SendPolicyMode)
    (h : classifyCommand env d body raw = Cmd.sendPolicy m) :
    resetRequested body = false ∧ (parseActivationCommand (some body)).hasCommand = false ∧
      (parseSendPolicyCommand body).hasCommand = true ∧
      (parseSendPolicyCommand body).mode = m := by
  unfold classifyCommand at h
  repeat' split at h
  all_goals simp_all

/-- Inversion: a message classified as Compact fails all earlier guards
and matches the compact trigger. -/
theorem classify_compact_elim (env : Env) (d : InlineDirectives) (body raw : String)
    (h : classifyCommand env d body raw = Cmd.compact) :
    resetRequested body = false ∧ (parseActivationCommand (some body)).hasCommand = false ∧
      (parseSendPolicyCommand body).hasCommand = false ∧ restartRequested body = false ∧
      helpRequested body = false ∧ statusRequested d body = false ∧
      compactRequested body = true := by
  unfold classifyCommand at h
  repeat' split at h
  all_goals simp_all

/-- Inversion: a message classified as Abort fails all command guards and
matches the abort trigger. -/
theorem classify_abort_elim (env : Env) (d : InlineDirectives) (body raw : String)
    (h : classifyCommand env d body raw = Cmd.abort) :
    resetRequested body = false ∧ (parseActivationCommand (some body)).hasCommand = false ∧
      (parseSendPolicyCommand body).hasCommand = false ∧ restartRequested body = false ∧
      helpRequested body = false ∧ statusRequested d body = false ∧
      compactRequested body = false ∧ env.abortTriggerCheck raw = true := by
  unfold classifyCommand at h
  repeat' split at h
  all_goals simp_all

/-- Witness for C1: an unauthorized `/send on` is dropped silently. -/
theorem c1_witness :
    (handleCommands env0
      { params0 with
        command := { ctx0 with
          isAuthorizedSender := false,
          commandBodyNormalized := "/send on",
          rawBodyNormalized := "/send on" } }).1 = ⟨none, false⟩ :=
  c1_unauthorized_privileged_silent env0 _ (by decide) (by decide)

/-- C4: `/activation` in a non-group conversation returns the "only
applies to group chats" reply with `shouldContinue = false`, mutates no
state, performs no effect, and does so identically for every value of
`isAuthorizedSender` (the reply precedes the authorization check). -/
theorem c4_activation_non_group_reply (env : Env) (p : HandleParams)
    (m : Option GroupActivationMode)
    (hc : classifyCommand env p.directives p.command.commandBodyNormalized
      p.command.rawBodyNormalized = Cmd.activation m)
    (hg : p.isGroup = false) :
    (handleCommands env p).1 =
        ⟨some "⚙️ Group activation only applies to group chats.", false⟩
    ∧ (handleCommands env p).2.1 = ⟨p.sessionEntry, p.sessionStore, p.abortMemory⟩
    ∧ (handleCommands env p).2.2 = []
    ∧ ∀ b : Bool,
        (handleCommands env { p with command := { p.command with isAuthorizedSender := b } }).1 =
          ⟨some "⚙️ Group activation only applies to group chats.", false⟩ := by
  obtain ⟨h1, h2, _⟩ := classify_activation_elim env p.directives
    p.command.commandBodyNormalized p.command.rawBodyNormalized m hc
  refine ⟨?_, ?_, ?_, ?_⟩ <;>
    simp [handleCommands, h1, h2, hg]

/-- Witness for C4: `/activation always` outside a group from an
authorized sender yields the inapplicability reply with no mutation. -/
theorem c4_witness :
    (handleCommands env0
      { params0 with
        command := { ctx0 with
          commandBodyNormalized := "/activation always",
          rawBodyNormalized := "/activation always" } }).1 =
        ⟨some "⚙️ Group activation only applies to group chats.", false⟩ :=
  (c4_activation_non_group_reply env0 _ (some GroupActivationMode.always)
    (by decide) (by decide)).1

/-- The activation gate passes exactly when the sender is authorized and,
on an owner-scoped (WhatsApp) surface with a nonempty owner list, the
normalized sender identity is nonempty and appears in the owner list. -/
theorem activationDenied_false_iff (env : Env) (cmd : CommandCtx) :
    activationDenied env cmd = false ↔
      (cmd.isAuthorizedSender = true ∧
        (cmd.isWhatsAppSurface = true → cmd.ownerList ≠ [] →
          (activationSender env cmd ≠ "" ∧
            cmd.ownerList.contains (activationSender env cmd) = true))) := by
  unfold activationDenied
  cases hA : cmd.isAuthorizedSender <;> cases hW : cmd.isWhatsAppSurface <;>
    cases hO : cmd.ownerList.isEmpty <;>
      simp_all [List.isEmpty_iff, Bool.not_eq_true']

/-- C3: for `/activation` in a group, the dispatch is the silent denial
`{reply: none, shouldContinue: false}` exactly when the claim's
authorization condition fails: on a WhatsApp surface with a nonempty
owner list the sender must be authorized and the normalized E.164
identity must appear in the owner list (an empty normalization counts as
having no identity); otherwise `isAuthorizedSender` alone decides. -/
theorem c3_activation_owner_authorization (env : Env) (p : HandleParams)
    (m : Option GroupActivationMode)
    (hc : classifyCommand env p.directives p.command.commandBodyNormalized
      p.command.rawBodyNormalized = Cmd.activation m)
    (hg : p.isGroup = true) :
    ((handleCommands env p).1 = ⟨none, false⟩ ↔
      ¬(p.command.isAuthorizedSender = true ∧
        (p.command.isWhatsAppSurface = true → p.command.ownerList ≠ [] →
          (activationSender env p.command ≠ "" ∧
            p.command.ownerList.contains (activationSender env p.command) = true)))) := by
  obtain ⟨h1, h2, _⟩ := classify_activation_elim env p.directives
    p.command.commandBodyNormalized p.command.rawBodyNormalized m hc
  rw [← activationDenied_false_iff env p.command]
  cases hd : activationDenied env p.command
  · cases hm : (parseActivationCommand (some p.command.commandBodyNormalized)).mode with
    | none => simp [handleCommands, h1, h2, hg, hd, hm]
    | some mo =>
      cases hE : p.sessionEntry <;> cases hS : p.sessionStore <;> cases hK : p.sessionKey <;>
        simp [handleCommands, h1, h2, hg, hd, hm, hE, hS, hK]
  · simp [handleCommands, h1, h2, hg, hd]

/-- Witness for C3: on WhatsApp with a nonempty owner list, an authorized
owner-listed sender is not silently denied. -/
theorem c3_witness :
    ¬((handleCommands env0
      { params0 with
        isGroup := true,
        command := { ctx0 with
          ownerList := ["+15550001111"],
          commandBodyNormalized := "/activation mention",
          rawBodyNormalized := "/activation mention" } }).1 = ⟨none, false⟩) := by
  have h := c3_activation_owner_authorization env0
    { params0 with
      isGroup := true,
      command := { ctx0 with
        ownerList := ["+15550001111"],
        commandBodyNormalized := "/activation mention",
        rawBodyNormalized := "/activation mention" } }
    (some GroupActivationMode.mention) (by decide) (by decide)
  rw [h]
  simp [activationSender, env0, ctx0]

/-- C6: an authorized `/compact` without a session id (entry absent or
`sessionId` missing) replies exactly "⚙️ Compaction unavailable (missing
session id)." with `shouldContinue = false`, leaves the state unchanged,
and produces an empty trace — in particular no active-run check, no
cancellation, no wait, and no compaction call. -/
theorem c6_compact_missing_session_id (env : Env) (p : HandleParams)
    (hc : classifyCommand env p.directives p.command.commandBodyNormalized
      p.command.rawBodyNormalized = Cmd.compact)
    (hauth : p.command.isAuthorizedSender = true)
    (hsid : p.sessionEntry.bind (fun e => e.sessionId) = none) :
    (handleCommands env p).1 =
        ⟨some "⚙️ Compaction unavailable (missing session id).", false⟩
    ∧ (handleCommands env p).2.1 = ⟨p.sessionEntry, p.sessionStore, p.abortMemory⟩
    ∧ (handleCommands env p).2.2 = []
    ∧ touchesRunCoordination (handleCommands env p).2.2 = false
    ∧ callsCompaction (handleCommands env p).2.2 = false := by
  obtain ⟨h1, h2, h3, h4, h5, h6, h7⟩ := classify_compact_elim env p.directives
    p.command.commandBodyNormalized p.command.rawBodyNormalized hc
  cases hE : p.sessionEntry with
  | none =>
    simp [handleCommands, h1, h2, h3, h4, h5, h6, h7, hauth, hE,
      touchesRunCoordination, callsCompaction]
  | some e =>
    rw [hE] at hsid
    simp only [Option.some_bind] at hsid
    simp [handleCommands, h1, h2, h3, h4, h5, h6, h7, hauth, hE, hsid,
      touchesRunCoordination, callsCompaction]

/-- Witness for C6: `/compact` with no session entry. -/
theorem c6_witness :
    (handleCommands env0
      { params0 with
        sessionEntry := none,
        command := { ctx0 with
          commandBodyNormalized := "/compact",
          rawBodyNormalized := "/compact" } }).1 =
      ⟨some "⚙️ Compaction unavailable (missing session id).", false⟩ :=
  (c6_compact_missing_session_id env0 _ (by decide) (by decide) (by decide)).1

/-- C2: an authorized `/compact` whose entry carries a session id (a
nonempty one — the dispatcher treats an empty id as missing) with an
active run first records the active-run check, then the cancellation
signal, then the wait bounded by a 15000 ms timeout, and only then the
compaction call; and the dispatch result and final state are the same
for every wait outcome, so a timed-out wait is never surfaced as an
error and the compaction call still proceeds. -/
theorem c2_compact_cancel_wait_then_compact (env : Env) (p : HandleParams)
    (e : SessionEntry) (sid : String)
    (hc : classifyCommand env p.directives p.command.commandBodyNormalized
      p.command.rawBodyNormalized = Cmd.compact)
    (hauth : p.command.isAuthorizedSender = true)
    (hE : p.sessionEntry = some e)
    (hsid : e.sessionId = some sid)
    (hne : sid ≠ "")
    (hact : env.isRunActive sid = true) :
    (∃ ended instr rest,
      (handleCommands env p).2.2 =
        Effect.checkRunActive sid true :: Effect.abortRun sid ::
          Effect.waitRunEnd sid 15000 ended :: Effect.compactCall sid instr :: rest)
    ∧ ∀ w : String → Bool,
        (handleCommands { env with runEndedInTime := w } p).1 = (handleCommands env p).1
        ∧ (handleCommands { env with runEndedInTime := w } p).2.1 =
            (handleCommands env p).2.1 := by
  obtain ⟨h1, h2, h3, h4, h5, h6, h7⟩ := classify_compact_elim env p.directives
    p.command.commandBodyNormalized p.command.rawBodyNormalized hc
  constructor
  · refine ⟨env.runEndedInTime sid, extractCompactInstructions env p.rawBody p.isGroup, ?_, ?_⟩
    · exact (if env.compactOutcome.ok && env.compactOutcome.compacted then
        incrementCompactionCount env.now e p.sessionStore p.sessionKey p.storePath
        else (e, p.sessionStore, [])).2.2 ++ [Effect.systemEvent (compactLine env p e)]
    · simp [handleCommands, h1, h2, h3, h4, h5, h6, h7, hauth, hE, hsid, hne, hact]
  · intro w
    constructor <;>
      simp [handleCommands, compactLine, compactLabel, compactReason,
        incrementCompactionCount, h1, h2, h3, h4, h5, h6, h7, hauth, hE, hsid, hne, hact]

/-- Witness for C2: `/compact` with an active run for session "sess-1". -/
theorem c2_witness :
    (∃ ended instr rest,
      (handleCommands { env0 with isRunActive := fun s => s = "sess-1" }
        { params0 with
          command := { ctx0 with
            commandBodyNormalized := "/compact",
            rawBodyNormalized := "/compact" } }).2.2 =
        Effect.checkRunActive "sess-1" true :: Effect.abortRun "sess-1" ::
          Effect.waitRunEnd "sess-1" 15000 ended ::
            Effect.compactCall "sess-1" instr :: rest)
    ∧ ∀ w : String → Bool,
        (handleCommands { { env0 with isRunActive := fun s => s = "sess-1" } with
            runEndedInTime := w }
          { params0 with
            command := { ctx0 with
              commandBodyNormalized := "/compact",
              rawBodyNormalized := "/compact" } }).1 =
          (handleCommands { env0 with isRunActive := fun s => s = "sess-1" }
            { params0 with
              command := { ctx0 with
                commandBodyNormalized := "/compact",
                rawBodyNormalized := "/compact" } }).1
        ∧ (handleCommands { { env0 with isRunActive := fun s => s = "sess-1" } with
              runEndedInTime := w }
            { params0 with
              command := { ctx0 with
                commandBodyNormalized := "/compact",
                rawBodyNormalized := "/compact" } }).2.1 =
            (handleCommands { env0 with isRunActive := fun s => s = "sess-1" }
              { params0 with
                command := { ctx0 with
                  commandBodyNormalized := "/compact",
                  rawBodyNormalized := "/compact" } }).2.1 :=
  c2_compact_cancel_wait_then_compact { env0 with isRunActive := fun s => s = "sess-1" }
    _ entry0 "sess-1" (by decide) (by decide) (by decide) (by decide) (by decide) (by decide)

/-- C5 (amended): for an authorized `/send <mode>` with entry, store and
key present, inherit removes the `sendPolicy` field entirely while
allow/deny store the value, `updatedAt` is set to the dispatch time, the
updated entry is written back to the store under the key, the store is
persisted exactly when a store path is present, and the reply reports the
label inherit→"inherit", allow→"on", deny→"off". -/
theorem c5_send_policy_update (env : Env) (p : HandleParams) (m : SendPolicyMode)
    (e : SessionEntry) (store : String → Option SessionEntry) (key : String)
    (hc : classifyCommand env p.directives p.command.commandBodyNormalized
      p.command.rawBodyNormalized = Cmd.sendPolicy (some m))
    (hauth : p.command.isAuthorizedSender = true)
    (hE : p.sessionEntry = some e)
    (hS : p.sessionStore = some store)
    (hK : p.sessionKey = some key) :
    (handleCommands env p).1 =
        ⟨some ("⚙️ Send policy set to " ++ sendModeLabel m ++ "."), false⟩
    ∧ (handleCommands env p).2.1.sessionEntry =
        some { e with sendPolicy := sendFieldValue m, updatedAt := env.now }
    ∧ (handleCommands env p).2.1.sessionStore =
        some (storeInsert store key { e with sendPolicy := sendFieldValue m, updatedAt := env.now })
    ∧ (∀ pth, p.storePath = some pth → (handleCommands env p).2.2 = [Effect.saveStore pth])
    ∧ (p.storePath = none → (handleCommands env p).2.2 = []) := by
  obtain ⟨h1, h2, h3, h4⟩ := classify_sendPolicy_elim env p.directives
    p.command.commandBodyNormalized p.command.rawBodyNormalized (some m) hc
  refine ⟨?_, ?_, ?_, ?_, ?_⟩
  · cases m <;>
      simp [handleCommands, h1, h2, h3, h4, hauth, hE, hS, hK, sendModeLabel]
  · cases m <;>
      simp [handleCommands, h1, h2, h3, h4, hauth, hE, hS, hK, sendFieldValue]
  · cases m <;>
      simp [handleCommands, h1, h2, h3, h4, hauth, hE, hS, hK, sendFieldValue]
  · intro pth hpath
    cases m <;>
      simp [handleCommands, h1, h2, h3, h4, hauth, hE, hS, hK, hpath]
  · intro hpath
    cases m <;>
      simp [handleCommands, h1, h2, h3, h4, hauth, hE, hS, hK, hpath]

/-- Counterexample for C5 as stated: with entry, store and key all
present but no store path, an authorized `/send inherit` still returns
the success reply, yet no persistence write happens — the claim's "the
store is persisted" fails without the store-path condition. -/
theorem c5_counterexample :
    classifyCommand env0 { hasStatusDirective := false } "/send inherit" "/send inherit" =
        Cmd.sendPolicy (some SendPolicyMode.inherit)
    ∧ ({ params0 with
        storePath := none,
        command := { ctx0 with
          commandBodyNormalized := "/send inherit",
          rawBodyNormalized := "/send inherit" } } : HandleParams).command.isAuthorizedSender = true
    ∧ (handleCommands env0
        { params0 with
          storePath := none,
          command := { ctx0 with
            commandBodyNormalized := "/send inherit",
            rawBodyNormalized := "/send inherit" } }).1 =
        ⟨some "⚙️ Send policy set to inherit.", false⟩
    ∧ savedStore (handleCommands env0
        { params0 with
          storePath := none,
          command := { ctx0 with
            commandBodyNormalized := "/send inherit",
            rawBodyNormalized := "/send inherit" } }).2.2 = false := by
  decide

/-- Witness for C5 (amended): `/send off` with a store path persists and
replies with the "off" label. -/
theorem c5_witness :
    (handleCommands env0
      { params0 with
        command := { ctx0 with
          commandBodyNormalized := "/send off",
          rawBodyNormalized := "/send off" } }).1 =
      ⟨some "⚙️ Send policy set to off.", false⟩ :=
  (c5_send_policy_update env0 _ SendPolicyMode.deny entry0
    (fun k => if k = "key-1" then some entry0 else none) "key-1"
    (by decide) (by decide) (by decide) rfl (by decide)).1

/-- Re-inserting the same entry under the same key changes nothing. -/
theorem storeInsert_self (store : String → Option SessionEntry) (k : String)
    (e : SessionEntry) :
    storeInsert (storeInsert store k e) k e = storeInsert store k e := by
  funext k2
  unfold storeInsert
  by_cases h : k2 = k <;> simp [h]

/-- Setting the same abort-memory key to true twice equals setting it
once. -/
theorem memInsert_self (mem : String → Bool) (k : String) :
    (fun k2 => if k2 = k then true else if k2 = k then true else mem k2) =
      fun k2 => if k2 = k then true else mem k2 := by
  funext k2
  by_cases h : k2 = k <;> simp [h]

/-- C7 (amended): the abort trigger has no authorization gate and always
replies "⚙️ Agent was aborted."; when entry, store and key are all
present it sets `abortedLastRun = true` and bumps `updatedAt` on the
entry, writes it back to the store, and persists exactly when a store
path is present; when any of the three is absent and a nonempty abort
key exists, it instead writes true to the ephemeral abort memory; and
re-dispatching the same trigger from the resulting state yields the same
reply and the same state (idempotence). -/
theorem c7_abort_ungated_idempotent (env : Env) (p : HandleParams)
    (hc : classifyCommand env p.directives p.command.commandBodyNormalized
      p.command.rawBodyNormalized = Cmd.abort) :
    (handleCommands env p).1 = ⟨some "⚙️ Agent was aborted.", false⟩
    ∧ (∀ e store key, p.sessionEntry = some e → p.sessionStore = some store →
        p.sessionKey = some key →
        (handleCommands env p).2.1.sessionEntry =
            some { e with abortedLastRun := true, updatedAt := env.now }
        ∧ (handleCommands env p).2.1.sessionStore =
            some (storeInsert store key { e with abortedLastRun := true, updatedAt := env.now })
        ∧ (∀ pth, p.storePath = some pth → (handleCommands env p).2.2 = [Effect.saveStore pth])
        ∧ (p.storePath = none → (handleCommands env p).2.2 = []))
    ∧ ((p.sessionEntry = none ∨ p.sessionStore = none ∨ p.sessionKey = none) →
        ∀ k, p.command.abortKey = some k → k ≠ "" →
          (handleCommands env p).2.1.abortMemory k = true
          ∧ (handleCommands env p).2.2 = [Effect.setAbortMemory k true]
          ∧ (handleCommands env p).2.1.sessionEntry = p.sessionEntry)
    ∧ (handleCommands env (nextParams p (handleCommands env p).2.1)).1 =
        (handleCommands env p).1
    ∧ (handleCommands env (nextParams p (handleCommands env p).2.1)).2.1 =
        (handleCommands env p).2.1 := by
  obtain ⟨h1, h2, h3, h4, h5, h6, h7, h8⟩ := classify_abort_elim env p.directives
    p.command.commandBodyNormalized p.command.rawBodyNormalized hc
  cases hE : p.sessionEntry with
  | some e =>
    cases hS : p.sessionStore with
    | some store =>
      cases hK : p.sessionKey with
      | some key =>
        refine ⟨?_, ?_, ?_, ?_, ?_⟩
        · simp [handleCommands, h1, h2, h3, h4, h5, h6, h7, h8, hE, hS, hK]
        · intro e' store' key' hE' hS' hK'
          obtain rfl : e = e' := Option.some.inj hE'
          obtain rfl : store = store' := Option.some.inj hS'
          obtain rfl : key = key' := Option.some.inj hK'
          refine ⟨?_, ?_, ?_, ?_⟩
          · simp [handleCommands, h1, h2, h3, h4, h5, h6, h7, h8, hE, hS, hK]
          · simp [handleCommands, h1, h2, h3, h4, h5, h6, h7, h8, hE, hS, hK]
          · intro pth hpath
            simp [handleCommands, h1, h2, h3, h4, h5, h6, h7, h8, hE, hS, hK, hpath]
          · intro hpath
            simp [handleCommands, h1, h2, h3, h4, h5, h6, h7, h8, hE, hS, hK, hpath]
        · intro hgap
          simp at hgap
        · simp [handleCommands, nextParams, h1, h2, h3, h4, h5, h6, h7, h8, hE, hS, hK]
        · simp [handleCommands, nextParams, h1, h2, h3, h4, h5, h6, h7, h8, hE, hS, hK,
            storeInsert_self]
      | none =>
        refine ⟨?_, ?_, ?_, ?_, ?_⟩
        · rcases hak : p.command.abortKey with _ | k
          · simp [handleCommands, h1, h2, h3, h4, h5, h6, h7, h8, hE, hS, hK, hak]
          · by_cases hke : k = "" <;>
              simp [handleCommands, h1, h2, h3, h4, h5, h6, h7, h8, hE, hS, hK, hak, hke]
        · intro e' store' key' hE' hS' hK'
          exact absurd hK' (by simp)
        · intro hgap k hak hke
          simp [handleCommands, h1, h2, h3, h4, h5, h6, h7, h8, hE, hS, hK, hak, hke]
        · rcases hak : p.command.abortKey with _ | k
          · simp [handleCommands, nextParams, h1, h2, h3, h4, h5, h6, h7, h8, hE, hS, hK, hak]
          · by_cases hke : k = "" <;>
              simp [handleCommands, nextParams, h1, h2, h3, h4, h5, h6, h7, h8, hE, hS, hK,
                hak, hke]
        · rcases hak : p.command.abortKey with _ | k
          · simp [handleCommands, nextParams, h1, h2, h3, h4, h5, h6, h7, h8, hE, hS, hK, hak]
          · by_cases hke : k = "" <;>
              simp [handleCommands, nextParams, h1, h2, h3, h4, h5, h6, h7, h8, hE, hS, hK,
                hak, hke, memInsert_self]
    | none =>
      refine ⟨?_, ?_, ?_, ?_, ?_⟩
      · rcases hak : p.command.abortKey with _ | k
        · simp [handleCommands, h1, h2, h3, h4, h5, h6, h7, h8, hE, hS, hak]
        · by_cases hke : k = "" <;>
            simp [handleCommands, h1, h2, h3, h4, h5, h6, h7, h8, hE, hS, hak, hke]
      · intro e' store' key' hE' hS' hK'
        exact absurd hS' (by simp)
      · intro hgap k hak hke
        simp [handleCommands, h1, h2, h3, h4, h5, h6, h7, h8, hE, hS, hak, hke]
      · rcases hak : p.command.abortKey with _ | k
        · simp [handleCommands, nextParams, h1, h2, h3, h4, h5, h6, h7, h8, hE, hS, hak]
        · by_cases hke : k = "" <;>
            simp [handleCommands, nextParams, h1, h2, h3, h4, h5, h6, h7, h8, hE, hS, hak, hke]
      · rcases hak : p.command.abortKey with _ | k
        · simp [handleCommands, nextParams, h1, h2, h3, h4, h5, h6, h7, h8, hE, hS, hak]
        · by_cases hke : k = "" <;>
            simp [handleCommands, nextParams, h1, h2, h3, h4, h5, h6, h7, h8, hE, hS, hak,
              hke, memInsert_self]
  | none =>
    refine ⟨?_, ?_, ?_, ?_, ?_⟩
    · rcases hak : p.command.abortKey with _ | k
      · simp [handleCommands, h1, h2, h3, h4, h5, h6, h7, h8, hE, hak]
      · by_cases hke : k = "" <;>
          simp [handleCommands, h1, h2, h3, h4, h5, h6, h7, h8, hE, hak, hke]
    · intro e' store' key' hE' hS' hK'
      exact absurd hE' (by simp)
    · intro hgap k hak hke
      simp [handleCommands, h1, h2, h3, h4, h5, h6, h7, h8, hE, hak, hke]
    · rcases hak : p.command.abortKey with _ | k
      · simp [handleCommands, nextParams, h1, h2, h3, h4, h5, h6, h7, h8, hE, hak]
      · by_cases hke : k = "" <;>
          simp [handleCommands, nextParams, h1, h2, h3, h4, h5, h6, h7, h8, hE, hak, hke]
    · rcases hak : p.command.abortKey with _ | k
      · simp [handleCommands, nextParams, h1, h2, h3, h4, h5, h6, h7, h8, hE, hak]
      · by_cases hke : k = "" <;>
          simp [handleCommands, nextParams, h1, h2, h3, h4, h5, h6, h7, h8, hE, hak, hke,
            memInsert_self]

/-- Witness for C7 (amended): an abort trigger with entry, store and key
present replies "⚙️ Agent was aborted.". -/
theorem c7_witness :
    (handleCommands { env0 with abortTriggerCheck := fun s => s = "please abort" }
      { params0 with
        command := { ctx0 with
          rawBodyNormalized := "please abort",
          commandBodyNormalized := "please abort" } }).1 =
      ⟨some "⚙️ Agent was aborted.", false⟩ :=
  (c7_abort_ungated_idempotent { env0 with abortTriggerCheck := fun s => s = "please abort" }
    _ (by decide)).1

/-- Counterexample for C7 as stated: a session entry exists but the store
is absent, so the abort trigger does not set `abortedLastRun` on the
entry — it writes the ephemeral abort memory instead, contradicting
"sets abortedLastRun = true on the session entry when an entry exists". -/
theorem c7_counterexample :
    ({ params0 with
      sessionStore := none,
      sessionKey := none,
      command := { ctx0 with
        rawBodyNormalized := "please abort",
        commandBodyNormalized := "please abort" } } : HandleParams).sessionEntry = some entry0
    ∧ entry0.abortedLastRun = false
    ∧ (handleCommands { env0 with abortTriggerCheck := fun s => s = "please abort" }
        { params0 with
          sessionStore := none,
          sessionKey := none,
          command := { ctx0 with
            rawBodyNormalized := "please abort",
            commandBodyNormalized := "please abort" } }).1 =
        ⟨some "⚙️ Agent was aborted.", false⟩
    ∧ (handleCommands { env0 with abortTriggerCheck := fun s => s = "please abort" }
        { params0 with
          sessionStore := none,
          sessionKey := none,
          command := { ctx0 with
            rawBodyNormalized := "please abort",
            commandBodyNormalized := "please abort" } }).2.1.sessionEntry = some entry0
    ∧ (handleCommands { env0 with abortTriggerCheck := fun s => s = "please abort" }
        { params0 with
          sessionStore := none,
          sessionKey := none,
          command := { ctx0 with
            rawBodyNormalized := "please abort",
            commandBodyNormalized := "please abort" } }).2.2 =
        [Effect.setAbortMemory "abort-key-0" true] := by
  decide

/-- C8 (amended): token recognition is case-insensitive for the
activation and send parsers, for the `/help` token regex, and for
`hasControlCommand`; but the dispatcher's exact-form comparisons for
reset, new, restart, status, and compact are case-sensitive, so only the
lowercase forms are classified as those commands. -/
theorem c8_case_sensitivity_split :
    parseActivationCommand (some "/ACTIVATION MENTION") =
        { hasCommand := true, mode := some GroupActivationMode.mention }
    ∧ parseSendPolicyCommand "/SEND ON" =
        { hasCommand := true, mode := some SendPolicyMode.allow }
    ∧ classifyCommand env0 { hasStatusDirective := false } "/Activation" "/Activation" =
        Cmd.activation none
    ∧ classifyCommand env0 { hasStatusDirective := false } "/HELP" "/HELP" = Cmd.help
    ∧ hasControlCommand "/RESET" = true
    ∧ hasControlCommand "/Compact" = true
    ∧ classifyCommand env0 { hasStatusDirective := false } "/reset" "/reset" = Cmd.reset
    ∧ classifyCommand env0 { hasStatusDirective := false } "/RESET" "/RESET" = Cmd.fallthrough
    ∧ classifyCommand env0 { hasStatusDirective := false } "/new" "/new" = Cmd.reset
    ∧ classifyCommand env0 { hasStatusDirective := false } "/New" "/New" = Cmd.fallthrough
    ∧ classifyCommand env0 { hasStatusDirective := false } "/restart" "/restart" = Cmd.restart
    ∧ classifyCommand env0 { hasStatusDirective := false } "/RESTART" "/RESTART" = Cmd.fallthrough
    ∧ classifyCommand env0 { hasStatusDirective := false } "/status" "/status" = Cmd.status
    ∧ classifyCommand env0 { hasStatusDirective := false } "/STATUS" "/STATUS" = Cmd.fallthrough
    ∧ classifyCommand env0 { hasStatusDirective := false } "/compact" "/compact" = Cmd.compact
    ∧ classifyCommand env0 { hasStatusDirective := false } "/Compact" "/Compact" = Cmd.fallthrough := by
  decide

/-- Counterexample for C8 as stated: "/RESET" as the entire normalized
message is not classified as the reset command — the dispatcher falls
through, and an unauthorized sender is not silently dropped but handed on
to normal processing. -/
theorem c8_counterexample :
    classifyCommand env0 { hasStatusDirective := false } "/RESET" "/RESET" ≠ Cmd.reset
    ∧ (handleCommands env0
        { params0 with
          command := { ctx0 with
            isAuthorizedSender := false,
            commandBodyNormalized := "/RESET",
            rawBodyNormalized := "/RESET" } }).1 = ⟨none, true⟩ := by
  decide

/-- A position matching a slash token starts with `/`. -/
theorem slashTokenAt_head (toks : List (List Char)) (c : Char) (post : List Char)
    (h : slashTokenAt toks (c :: post) = true) : c = '/' := by
  unfold slashTokenAt at h
  simp only [Bool.and_eq_true, decide_eq_true_eq] at h
  exact h.1

/-- The scan finds a match exactly when the text splits into a prefix
satisfying the boundary condition and a suffix starting with a slash
token. -/
theorem tokenScan_iff (toks : List (List Char)) :
    ∀ (b : Bool) (l : List Char),
      tokenScan toks b l = true ↔
        ∃ pre post, l = pre ++ post ∧ boundaryOk b pre ∧
          slashTokenAt toks post = true := by
  intro b l
  induction l generalizing b with
  | nil =>
    simp only [tokenScan, Bool.false_eq_true, false_iff]
    rintro ⟨pre, post, heq, hb, hs⟩
    obtain ⟨rfl, rfl⟩ := List.append_eq_nil.mp heq.symm
    simp [slashTokenAt] at hs
  | cons c rest ih =>
    constructor
    · intro h
      rw [tokenScan] at h
      rcases (by simpa using h :
          (b = true ∧ slashTokenAt toks (c :: rest) = true) ∨
            tokenScan toks (isJsSpace c) rest = true) with ⟨hb, hs⟩ | hr
      · exact ⟨[], c :: rest, rfl, hb, hs⟩
      · obtain ⟨pre, post, heq, hb, hs⟩ := (ih (isJsSpace c)).mp hr
        refine ⟨c :: pre, post, by rw [heq, List.cons_append], ?_, hs⟩
        cases pre with
        | nil => simpa [boundaryOk] using hb
        | cons d pre' => simpa [boundaryOk, List.getLast?_cons_cons] using hb
    · rintro ⟨pre, post, heq, hb, hs⟩
      rw [tokenScan]
      cases pre with
      | nil =>
        simp only [List.nil_append] at heq
        subst heq
        have hbb : b = true := by simpa [boundaryOk] using hb
        simp [hbb, hs]
      | cons d pre' =>
        rw [List.cons_append] at heq
        injection heq with hcd hrest
        subst hcd
        have hscan : tokenScan toks (isJsSpace c) rest = true := by
          refine (ih (isJsSpace c)).mpr ⟨pre', post, hrest, ?_, hs⟩
          cases pre' with
          | nil => simpa [boundaryOk] using hb
          | cons d2 pre2 => simpa [boundaryOk, List.getLast?_cons_cons] using hb
        simp [hscan]

/-- The trimmed text is empty exactly when every character is
whitespace. -/
theorem trimChars_nil_iff (l : List Char) :
    trimChars l = [] ↔ ∀ c ∈ l, isJsSpace c = true := by
  simp only [trimChars, List.reverse_eq_nil_iff, List.dropWhile_eq_nil_iff, List.mem_reverse]
  constructor
  · intro h c hc
    have hsplit := List.takeWhile_append_dropWhile (p := isJsSpace) (l := l)
    rw [← hsplit] at hc
    rcases List.mem_append.mp hc with h1 | h2
    · exact List.mem_takeWhile_imp h1
    · exact h c h2
  · intro h c hc
    exact h c (List.dropWhile_subset _ hc)

/-- C9: `hasControlCommand` accepts the full token set: it is true on
"ok /v" and "/model", false on "just chatting", and in general it is
true exactly when the lowered trimmed message is one of the exact
command forms or the text contains a word-bounded `/`-prefixed
recognized token followed by end-of-string, whitespace, or `:`. -/
theorem c9_hasControlCommand_tokens :
    hasControlCommand "ok /v" = true
    ∧ hasControlCommand "/model" = true
    ∧ hasControlCommand "just chatting" = false
    ∧ ∀ text : String,
        (hasControlCommand text = true ↔
          (exactControlForms.contains (lowerChars (trimChars text.data)) = true ∨
            specTokenOccurs text.data)) := by
  refine ⟨by decide, by decide, by decide, ?_⟩
  intro text
  by_cases h0 : text = ""
  · subst h0
    have hd : ("" : String).data = [] := rfl
    constructor
    · intro h
      exact absurd h (by decide)
    · rintro (hex | ⟨pre, post, heq, hb, hs⟩)
      · exact absurd hex (by decide)
      · exfalso
        rw [hd] at heq
        obtain ⟨rfl, rfl⟩ := List.append_eq_nil.mp heq.symm
        simp [slashTokenAt] at hs
  · by_cases hT : (trimChars text.data).isEmpty = true
    · have hall : ∀ c ∈ text.data, isJsSpace c = true :=
        (trimChars_nil_iff _).mp (List.isEmpty_iff.mp hT)
      constructor
      · intro h
        exact absurd h (by simp [hasControlCommand, h0, hT])
      · rintro (hex | ⟨pre, post, heq, hb, hs⟩)
        · exfalso
          rw [List.isEmpty_iff.mp hT] at hex
          exact absurd hex (by decide)
        · exfalso
          cases post with
          | nil => simp [slashTokenAt] at hs
          | cons c post' =>
            have hc := slashTokenAt_head _ _ _ hs
            have hmem : c ∈ text.data := by
              rw [heq]
              exact List.mem_append.mpr (Or.inr (List.mem_cons_self _ _))
            have hsp := hall c hmem
            rw [hc] at hsp
            exact absurd hsp (by decide)
    · by_cases hex : exactControlForms.contains (lowerChars (trimChars text.data)) = true
      · constructor
        · intro _
          exact Or.inl hex
        · intro _
          simp [hasControlCommand, h0, hT]
          exact Or.inl (by simpa using hex)
      · have hval : hasControlCommand text = tokenScan controlTokens true text.data := by
          simp [hasControlCommand, h0, hT, hex]
          intro hmem
          exact absurd (by simpa using hmem) hex
        rw [hval, tokenScan_iff]
        have hmem : lowerChars (trimChars text.data) ∉ exactControlForms := by
          intro hm
          exact hex (by simpa using hm)
        simp [hmem, specTokenOccurs]

/-- C10: when any of entry, store, or key is absent, a passing
`/activation <mode>` in a group, an authorized `/send <mode>`, and an
abort trigger with no abort key each still return their confirmation
replies while leaving the state unchanged and producing no effects (in
particular no persistence write); and when all three are present but the
store path is absent, each of the three mutating commands updates the
entry in memory while producing an empty trace — no durable write
before the reply. -/
theorem c10_missing_links_frame (env : Env) (p : HandleParams) :
    ((p.sessionEntry = none ∨ p.sessionStore = none ∨ p.sessionKey = none) →
      ((∀ m, classifyCommand env p.directives p.command.commandBodyNormalized
            p.command.rawBodyNormalized = Cmd.activation (some m) →
          p.isGroup = true →
          activationDenied env p.command = false →
          (handleCommands env p).1 =
              ⟨some ("⚙️ Group activation set to " ++ modeText m ++ "."), false⟩
          ∧ (handleCommands env p).2.1 = ⟨p.sessionEntry, p.sessionStore, p.abortMemory⟩
          ∧ (handleCommands env p).2.2 = [])
      ∧ (∀ m, classifyCommand env p.directives p.command.commandBodyNormalized
            p.command.rawBodyNormalized = Cmd.sendPolicy (some m) →
          p.command.isAuthorizedSender = true →
          (handleCommands env p).1 =
              ⟨some ("⚙️ Send policy set to " ++ sendModeLabel m ++ "."), false⟩
          ∧ (handleCommands env p).2.1 = ⟨p.sessionEntry, p.sessionStore, p.abortMemory⟩
          ∧ (handleCommands env p).2.2 = [])
      ∧ (classifyCommand env p.directives p.command.commandBodyNormalized
            p.command.rawBodyNormalized = Cmd.abort →
          p.command.abortKey = none →
          (handleCommands env p).1 = ⟨some "⚙️ Agent was aborted.", false⟩
          ∧ (handleCommands env p).2.1 = ⟨p.sessionEntry, p.sessionStore, p.abortMemory⟩
          ∧ (handleCommands env p).2.2 = [])))
    ∧ (∀ e store key, p.sessionEntry = some e → p.sessionStore = some store →
        p.sessionKey = some key → p.storePath = none →
        ((∀ m, classifyCommand env p.directives p.command.commandBodyNormalized
              p.command.rawBodyNormalized = Cmd.activation (some m) →
            p.isGroup = true →
            activationDenied env p.command = false →
            (handleCommands env p).2.1.sessionEntry =
                some { e with
                  groupActivation := some (modeText m),
                  groupActivationNeedsSystemIntro := true,
                  updatedAt := env.now }
            ∧ (handleCommands env p).2.2 = [])
        ∧ (∀ m, classifyCommand env p.directives p.command.commandBodyNormalized
              p.command.rawBodyNormalized = Cmd.sendPolicy (some m) →
            p.command.isAuthorizedSender = true →
            (handleCommands env p).2.1.sessionEntry =
                some { e with sendPolicy := sendFieldValue m, updatedAt := env.now }
            ∧ (handleCommands env p).2.2 = [])
        ∧ (classifyCommand env p.directives p.command.commandBodyNormalized
              p.command.rawBodyNormalized = Cmd.abort →
            (handleCommands env p).2.1.sessionEntry =
                some { e with abortedLastRun := true, updatedAt := env.now }
            ∧ (handleCommands env p).2.2 = []))) := by
  constructor
  · intro hgap
    refine ⟨?_, ?_, ?_⟩
    · intro m hc hg hallow
      obtain ⟨h1, h2, h3⟩ := classify_activation_elim env p.directives
        p.command.commandBodyNormalized p.command.rawBodyNormalized (some m) hc
      rcases hgap with hE | hS | hK
      · simp [handleCommands, h1, h2, h3, hg, hallow, hE]
      · cases hE : p.sessionEntry <;>
          simp [handleCommands, h1, h2, h3, hg, hallow, hE, hS]
      · cases hE : p.sessionEntry <;> cases hS : p.sessionStore <;>
          simp [handleCommands, h1, h2, h3, hg, hallow, hE, hS, hK]
    · intro m hc hauth
      obtain ⟨h1, h2, h3, h4⟩ := classify_sendPolicy_elim env p.directives
        p.command.commandBodyNormalized p.command.rawBodyNormalized (some m) hc
      rcases hgap with hE | hS | hK
      · cases m <;>
          simp [handleCommands, h1, h2, h3, h4, hauth, hE, sendModeLabel]
      · cases hE : p.sessionEntry <;> cases m <;>
          simp [handleCommands, h1, h2, h3, h4, hauth, hE, hS, sendModeLabel]
      · cases hE : p.sessionEntry <;> cases hS : p.sessionStore <;> cases m <;>
          simp [handleCommands, h1, h2, h3, h4, hauth, hE, hS, hK, sendModeLabel]
    · intro hc hak
      obtain ⟨h1, h2, h3, h4, h5, h6, h7, h8⟩ := classify_abort_elim env p.directives
        p.command.commandBodyNormalized p.command.rawBodyNormalized hc
      rcases hgap with hE | hS | hK
      · simp [handleCommands, h1, h2, h3, h4, h5, h6, h7, h8, hE, hak]
      · cases hE : p.sessionEntry <;>
          simp [handleCommands, h1, h2, h3, h4, h5, h6, h7, h8, hE, hS, hak]
      · cases hE : p.sessionEntry <;> cases hS : p.sessionStore <;>
          simp [handleCommands, h1, h2, h3, h4, h5, h6, h7, h8, hE, hS, hK, hak]
  · intro e store key hE hS hK hpath
    refine ⟨?_, ?_, ?_⟩
    · intro m hc hg hallow
      obtain ⟨h1, h2, h3⟩ := classify_activation_elim env p.directives
        p.command.commandBodyNormalized p.command.rawBodyNormalized (some m) hc
      simp [handleCommands, h1, h2, h3, hg, hallow, hE, hS, hK, hpath]
    · intro m hc hauth
      obtain ⟨h1, h2, h3, h4⟩ := classify_sendPolicy_elim env p.directives
        p.command.commandBodyNormalized p.command.rawBodyNormalized (some m) hc
      cases m <;>
        simp [handleCommands, h1, h2, h3, h4, hauth, hE, hS, hK, hpath, sendFieldValue]
    · intro hc
      obtain ⟨h1, h2, h3, h4, h5, h6, h7, h8⟩ := classify_abort_elim env p.directives
        p.command.commandBodyNormalized p.command.rawBodyNormalized hc
      simp [handleCommands, h1, h2, h3, h4, h5, h6, h7, h8, hE, hS, hK, hpath]

/-- Witness for C10: an authorized `/send on` with the session store
absent still replies with the confirmation while changing nothing. -/
theorem c10_witness :
    (handleCommands env0
      { params0 with
        sessionStore := none,
        command := { ctx0 with
          commandBodyNormalized := "/send on",
          rawBodyNormalized := "/send on" } }).1 =
        ⟨some "⚙️ Send policy set to on.", false⟩
    ∧ (handleCommands env0
        { params0 with
          sessionStore := none,
          command := { ctx0 with
            commandBodyNormalized := "/send on",
            rawBodyNormalized := "/send on" } }).2.1 =
        ⟨({ params0 with
            sessionStore := none,
            command := { ctx0 with
              commandBodyNormalized := "/send on",
              rawBodyNormalized := "/send on" } } : HandleParams).sessionEntry,
          ({ params0 with
            sessionStore := none,
            command := { ctx0 with
              commandBodyNormalized := "/send on",
              rawBodyNormalized := "/send on" } } : HandleParams).sessionStore,
          ({ params0 with
            sessionStore := none,
            command := { ctx0 with
              commandBodyNormalized := "/send on",
              rawBodyNormalized := "/send on" } } : HandleParams).abortMemory⟩
    ∧ (handleCommands env0
        { params0 with
          sessionStore := none,
          command := { ctx0 with
            commandBodyNormalized := "/send on",
            rawBodyNormalized := "/send on" } }).2.2 = [] :=
  ((c10_missing_links_frame env0
    { params0 with
      sessionStore := none,
      command := { ctx0 with
        commandBodyNormalized := "/send on",
        rawBodyNormalized := "/send on" } }).1
    (Or.inr (Or.inl rfl))).2.1 SendPolicyMode.allow (by decide) (by decide)

end Openclaw
